import Mathlib

/-!
Shallow embedding of the error model and cross-protocol error translation
layer of the todo-api-errors service, together with proofs of its
specification properties.

The definitions mirror, per file:
* `internal/errors` (AppError, constructors, ToGRPCStatus),
* `internal/validation/validation.go` (ValidateTask, ValidateBatchCreateTasks),
* `internal/service/todo_service.go` (CreateTask, BatchCreateTasks,
  UnaryErrorInterceptor, handleRepositoryError),
* `internal/middleware/http_errors.go` (responseWriter, CustomHTTPError,
  writeAppErrorResponse, getTypeForCode),
* `internal/repository` (InMemoryRepository.CreateTask, extractID).

Go's `map` iteration order is unspecified; wherever the source ranges over a
map (the duplicate-title map in `ValidateBatchCreateTasks`), the embedding
takes the enumeration order of the keys as an explicit parameter constrained
to be a permutation of the key set (`isKeyEnum`).  Wall-clock reads
(`timestamppb.Now()`, `time.Now()`) are passed in as an explicit `now`
parameter, and generated UUIDs as explicit arguments.
-/

namespace Todo

/-- gRPC transport codes (`google.golang.org/grpc/codes`), restricted to the
codes this service uses plus `OK` and `Unknown`. -/
inductive GRPCCode where
  | OK
  | InvalidArgument
  | NotFound
  | AlreadyExists
  | PermissionDenied
  | Unavailable
  | Internal
  | Unknown
  deriving DecidableEq

/-- `codes.Code.String()` for the codes above. -/
def GRPCCode.string : GRPCCode → String
  | .OK => "OK"
  | .InvalidArgument => "InvalidArgument"
  | .NotFound => "NotFound"
  | .AlreadyExists => "AlreadyExists"
  | .PermissionDenied => "PermissionDenied"
  | .Unavailable => "Unavailable"
  | .Internal => "Internal"
  | .Unknown => "Unknown"

/-- Application error codes (`errorspb.AppErrorCode`, spec section 7). -/
inductive AppErrorCode where
  | VALIDATION_FAILED
  | REQUIRED_FIELD
  | TOO_SHORT
  | TOO_LONG
  | INVALID_FORMAT
  | MUST_BE_FUTURE
  | INVALID_VALUE
  | DUPLICATE_TAG
  | INVALID_TAG_FORMAT
  | OVERDUE_COMPLETION
  | EMPTY_BATCH
  | BATCH_TOO_LARGE
  | DUPLICATE_TITLE
  | RESOURCE_NOT_FOUND
  | RESOURCE_CONFLICT
  | AUTHENTICATION_FAILED
  | PERMISSION_DENIED
  | RATE_LIMIT_EXCEEDED
  | SERVICE_UNAVAILABLE
  | INTERNAL_ERROR
  deriving DecidableEq

/-- `AppErrorCode.String()`: the protobuf enum-value name. -/
def AppErrorCode.string : AppErrorCode → String
  | .VALIDATION_FAILED => "VALIDATION_FAILED"
  | .REQUIRED_FIELD => "REQUIRED_FIELD"
  | .TOO_SHORT => "TOO_SHORT"
  | .TOO_LONG => "TOO_LONG"
  | .INVALID_FORMAT => "INVALID_FORMAT"
  | .MUST_BE_FUTURE => "MUST_BE_FUTURE"
  | .INVALID_VALUE => "INVALID_VALUE"
  | .DUPLICATE_TAG => "DUPLICATE_TAG"
  | .INVALID_TAG_FORMAT => "INVALID_TAG_FORMAT"
  | .OVERDUE_COMPLETION => "OVERDUE_COMPLETION"
  | .EMPTY_BATCH => "EMPTY_BATCH"
  | .BATCH_TOO_LARGE => "BATCH_TOO_LARGE"
  | .DUPLICATE_TITLE => "DUPLICATE_TITLE"
  | .RESOURCE_NOT_FOUND => "RESOURCE_NOT_FOUND"
  | .RESOURCE_CONFLICT => "RESOURCE_CONFLICT"
  | .AUTHENTICATION_FAILED => "AUTHENTICATION_FAILED"
  | .PERMISSION_DENIED => "PERMISSION_DENIED"
  | .RATE_LIMIT_EXCEEDED => "RATE_LIMIT_EXCEEDED"
  | .SERVICE_UNAVAILABLE => "SERVICE_UNAVAILABLE"
  | .INTERNAL_ERROR => "INTERNAL_ERROR"

/-- `errorspb.FieldViolation`: one field-level validation failure.  `Code` is
a string on the wire (`AppErrorCode.String()` of some code). -/
structure FieldViolation where
  Field : String
  Code : String
  Description : String
  deriving DecidableEq

/-- `errorspb.ErrorDetail`: the structured detail payload (spec section 6).
`Extensions` (a `map[string]*anypb.Any` in Go) is modelled as an association
list of already-marshalled values; `Timestamp` as a numeric instant. -/
structure ErrorDetail where
  Code : String
  Title : String
  Detail : String
  FieldViolations : List FieldViolation
  TraceId : String
  Timestamp : Nat
  Instance : String
  Extensions : List (String × String)
  deriving DecidableEq

/-- One detail message attached to a gRPC status: either the
application-specific `ErrorDetail` or the generic
`errdetails.BadRequest` whose entries are (field, description) pairs. -/
inductive StatusDetail where
  | errorDetail (d : ErrorDetail)
  | badRequest (fieldViolations : List (String × String))
  deriving DecidableEq

/-- A gRPC `status.Status`: code, message and attached details, in
attachment order. -/
structure WireStatus where
  code : GRPCCode
  message : String
  details : List StatusDetail
  deriving DecidableEq

/-- `errors.AppError` (internal/errors): the canonical error value.
`CausedBy` (an `error` in Go, kept for internal logging only) is modelled as
an optional message. -/
structure AppError where
  GRPCCode : GRPCCode
  AppCode : AppErrorCode
  Title : String
  Detail : String
  FieldViolations : List FieldViolation := []
  TraceID : String
  Instance : String := ""
  Extensions : List (String × String) := []
  CausedBy : Option String := none
  deriving DecidableEq

/-- `AppError.Error()`. -/
def AppError.ErrorString (e : AppError) : String :=
  "gRPC Code: " ++ e.GRPCCode.string ++ ", App Code: " ++ e.AppCode.string ++
    ", Title: " ++ e.Title ++ ", Detail: " ++ e.Detail

/-- The `ErrorDetail` that `AppError.ToGRPCStatus` embeds
(`Timestamp` is `timestamppb.Now()`, passed in as `now`). -/
def AppError.toErrorDetail (e : AppError) (now : Nat) : ErrorDetail :=
  { Code := e.AppCode.string
    Title := e.Title
    Detail := e.Detail
    FieldViolations := e.FieldViolations
    TraceId := e.TraceID
    Timestamp := now
    Instance := e.Instance
    Extensions := e.Extensions }

/-- `AppError.ToGRPCStatus`: converts the `AppError` into a gRPC status.
For validation errors (`InvalidArgument` with violations) it additionally
attaches the standard `BadRequest` detail, in the source's attachment order
`WithDetails(br, errorDetail)`. -/
def AppError.ToGRPCStatus (e : AppError) (now : Nat) : WireStatus :=
  let errorDetail := e.toErrorDetail now
  if e.GRPCCode = GRPCCode.InvalidArgument ∧ e.FieldViolations ≠ [] then
    { code := e.GRPCCode
      message := e.Title
      details := [StatusDetail.badRequest
          (e.FieldViolations.map fun fv => (fv.Field, fv.Description)),
        StatusDetail.errorDetail errorDetail] }
  else
    { code := e.GRPCCode
      message := e.Title
      details := [StatusDetail.errorDetail errorDetail] }

/-- `errors.NewValidationFailed`. -/
def NewValidationFailed (violations : List FieldViolation) (traceID : String) : AppError :=
  { GRPCCode := GRPCCode.InvalidArgument
    AppCode := AppErrorCode.VALIDATION_FAILED
    Title := "Validation Failed"
    Detail := "The request contains " ++ Nat.repr violations.length ++ " validation errors"
    FieldViolations := violations
    TraceID := traceID }

/-- `errors.NewNotFound`. -/
def NewNotFound (resource id traceID : String) : AppError :=
  { GRPCCode := GRPCCode.NotFound
    AppCode := AppErrorCode.RESOURCE_NOT_FOUND
    Title := "Resource Not Found"
    Detail := resource ++ " with ID '" ++ id ++ "' was not found."
    TraceID := traceID }

/-- `errors.NewConflict`. -/
def NewConflict (resource reason traceID : String) : AppError :=
  { GRPCCode := GRPCCode.AlreadyExists
    AppCode := AppErrorCode.RESOURCE_CONFLICT
    Title := "Resource Conflict"
    Detail := "Conflict creating " ++ resource ++ ": " ++ reason
    TraceID := traceID }

/-- `errors.NewInternal`. -/
def NewInternal (message traceID : String) (causedBy : Option String) : AppError :=
  { GRPCCode := GRPCCode.Internal
    AppCode := AppErrorCode.INTERNAL_ERROR
    Title := "Internal Server Error"
    Detail := message
    TraceID := traceID
    CausedBy := causedBy }

/-- `errors.NewPermissionDenied`. -/
def NewPermissionDenied (resource action traceID : String) : AppError :=
  { GRPCCode := GRPCCode.PermissionDenied
    AppCode := AppErrorCode.PERMISSION_DENIED
    Title := "Permission Denied"
    Detail := "You don't have permission to " ++ action ++ " " ++ resource
    TraceID := traceID }

/-- `errors.NewServiceUnavailable`. -/
def NewServiceUnavailable (message traceID : String) : AppError :=
  { GRPCCode := GRPCCode.Unavailable
    AppCode := AppErrorCode.SERVICE_UNAVAILABLE
    Title := "Service Unavailable"
    Detail := message
    TraceID := traceID }

/-- `errors.NewRequiredField`: single-violation convenience wrapper. -/
def NewRequiredField (field message traceID : String) : AppError :=
  { GRPCCode := GRPCCode.InvalidArgument
    AppCode := AppErrorCode.VALIDATION_FAILED
    Title := "Validation Failed"
    Detail := "The request contains validation errors"
    FieldViolations := [{ Field := field
                          Code := AppErrorCode.REQUIRED_FIELD.string
                          Description := message }]
    TraceID := traceID }

end Todo

/-- C1: every error constructor hard-codes exactly the (appCode,
transportCode) pair fixed by the spec's table — VALIDATION_FAILED with
InvalidArgument, RESOURCE_NOT_FOUND with NotFound, RESOURCE_CONFLICT with
AlreadyExists, PERMISSION_DENIED with PermissionDenied, SERVICE_UNAVAILABLE
with Unavailable, INTERNAL_ERROR with Internal, and NewRequiredField as an
alias of ValidationFailed — and `ToGRPCStatus` emits a wire status whose
code is that transport code. -/
theorem Todo.constructors_fix_code_pairs_and_status_code
    (vs : List Todo.FieldViolation) (tid r id reason msg act f fm : String)
    (cb : Option String) (e : Todo.AppError) (now : Nat) :
    ((Todo.NewValidationFailed vs tid).AppCode = Todo.AppErrorCode.VALIDATION_FAILED ∧
      (Todo.NewValidationFailed vs tid).GRPCCode = Todo.GRPCCode.InvalidArgument) ∧
    ((Todo.NewNotFound r id tid).AppCode = Todo.AppErrorCode.RESOURCE_NOT_FOUND ∧
      (Todo.NewNotFound r id tid).GRPCCode = Todo.GRPCCode.NotFound) ∧
    ((Todo.NewConflict r reason tid).AppCode = Todo.AppErrorCode.RESOURCE_CONFLICT ∧
      (Todo.NewConflict r reason tid).GRPCCode = Todo.GRPCCode.AlreadyExists) ∧
    ((Todo.NewPermissionDenied r act tid).AppCode = Todo.AppErrorCode.PERMISSION_DENIED ∧
      (Todo.NewPermissionDenied r act tid).GRPCCode = Todo.GRPCCode.PermissionDenied) ∧
    ((Todo.NewServiceUnavailable msg tid).AppCode = Todo.AppErrorCode.SERVICE_UNAVAILABLE ∧
      (Todo.NewServiceUnavailable msg tid).GRPCCode = Todo.GRPCCode.Unavailable) ∧
    ((Todo.NewInternal msg tid cb).AppCode = Todo.AppErrorCode.INTERNAL_ERROR ∧
      (Todo.NewInternal msg tid cb).GRPCCode = Todo.GRPCCode.Internal) ∧
    ((Todo.NewRequiredField f fm tid).AppCode = Todo.AppErrorCode.VALIDATION_FAILED ∧
      (Todo.NewRequiredField f fm tid).GRPCCode = Todo.GRPCCode.InvalidArgument) ∧
    (e.ToGRPCStatus now).code = e.GRPCCode := by
  refine ⟨⟨rfl, rfl⟩, ⟨rfl, rfl⟩, ⟨rfl, rfl⟩, ⟨rfl, rfl⟩, ⟨rfl, rfl⟩, ⟨rfl, rfl⟩,
    ⟨rfl, rfl⟩, ?_⟩
  unfold Todo.AppError.ToGRPCStatus
  by_cases h : e.GRPCCode = Todo.GRPCCode.InvalidArgument ∧ e.FieldViolations ≠ [] <;>
    simp [h]

namespace Todo

/-- Handler-returned errors as seen by `UnaryErrorInterceptor`
(internal/middleware): an `*AppError` (matched by `errors.As`), an error that
is already a native gRPC status (matched by `status.FromError`), or any
other error. -/
inductive HandlerErr where
  | app (e : AppError)
  | grpcStatus (st : WireStatus)
  | other (msg : String)
  deriving DecidableEq

/-- A handler invocation result: `(resp, nil)` or `(nil, err)`. -/
inductive HandlerResult (α : Type) where
  | ok (resp : α)
  | fail (e : HandlerErr)
  deriving DecidableEq

/-- The interceptor's result: the response passed through, or a gRPC
status error. -/
inductive InterceptOut (α : Type) where
  | ok (resp : α)
  | err (st : WireStatus)
  deriving DecidableEq

/-- `middleware.UnaryErrorInterceptor`: translates application errors into
gRPC statuses exactly once.  The second component models the lines written
to the server log. -/
def UnaryErrorInterceptor {α : Type} (res : HandlerResult α) (now : Nat) :
    InterceptOut α × List String :=
  match res with
  | .ok r => (.ok r, [])
  | .fail (.app e) =>
      (.err (e.ToGRPCStatus now),
        match e.CausedBy with
        | some c => ["ERROR: " ++ e.Title ++ ", Original cause: " ++ c]
        | none => [])
  | .fail (.grpcStatus st) => (.err st, [])
  | .fail (.other msg) =>
      (.err ((NewInternal "An unexpected error occurred" "" (some msg)).ToGRPCStatus now),
        ["UNEXPECTED ERROR: " ++ msg])

/-- `runtime.HTTPStatusFromCode` of grpc-gateway (external library),
restricted to the codes of `GRPCCode`. -/
def HTTPStatusFromCode : GRPCCode → Nat
  | .OK => 200
  | .InvalidArgument => 400
  | .NotFound => 404
  | .AlreadyExists => 409
  | .PermissionDenied => 403
  | .Unavailable => 503
  | .Internal => 500
  | .Unknown => 500

/-- `middleware.getTypeForCode`. -/
def getTypeForCode (code : String) : String :=
  if code = AppErrorCode.VALIDATION_FAILED.string then
    "https://api.example.com/errors/validation-failed"
  else if code = AppErrorCode.RESOURCE_NOT_FOUND.string then
    "https://api.example.com/errors/resource-not-found"
  else if code = AppErrorCode.RESOURCE_CONFLICT.string then
    "https://api.example.com/errors/resource-conflict"
  else if code = AppErrorCode.PERMISSION_DENIED.string then
    "https://api.example.com/errors/permission-denied"
  else if code = AppErrorCode.INTERNAL_ERROR.string then
    "https://api.example.com/errors/internal-error"
  else if code = AppErrorCode.SERVICE_UNAVAILABLE.string then
    "https://api.example.com/errors/service-unavailable"
  else
    "https://api.example.com/errors/unknown"

/-- The RFC-7807-shaped JSON body both HTTP render paths produce.  The keys
are `type`, `title`, `status`, `detail`, `instance` (optional), `traceId`,
`timestamp`, `errors` (present only with violations; entries carry
field/code/message from a `FieldViolation`) and `extensions` (optional). -/
structure ProblemJSON where
  type : String
  title : String
  status : Nat
  detail : String
  instanceVal : Option String
  traceId : String
  timestamp : Nat
  errors : Option (List FieldViolation)
  extensions : Option (List (String × String))
  deriving DecidableEq

/-- An HTTP error response: content type, written status code and body. -/
structure HTTPResponse where
  contentType : String
  status : Nat
  body : ProblemJSON
  deriving DecidableEq

/-- `middleware.writeAppErrorResponse` (`now` models `time.Now()`). -/
def writeAppErrorResponse (appErr : AppError) (inst : String) (now : Nat) : HTTPResponse :=
  let statusCode := HTTPStatusFromCode appErr.GRPCCode
  { contentType := "application/problem+json"
    status := statusCode
    body := { type := getTypeForCode appErr.AppCode.string
              title := appErr.Title
              status := statusCode
              detail := appErr.Detail
              instanceVal := if inst ≠ "" then some inst else none
              traceId := appErr.TraceID
              timestamp := now
              errors := if appErr.FieldViolations.isEmpty then none
                        else some appErr.FieldViolations
              extensions := none } }

/-- The first `ErrorDetail` among a status's details — the one
`CustomHTTPError`'s range-and-type-switch loop acts on. -/
def firstErrorDetail (details : List StatusDetail) : Option ErrorDetail :=
  details.findSome? fun d =>
    match d with
    | .errorDetail ed => some ed
    | .badRequest _ => none

/-- Trace-id resolution of `CustomHTTPError`: the inbound `X-Trace-ID`
header (empty string means absent), else the span's trace id if the span
context is valid, else a fresh UUID. -/
def resolveTraceID (header : String) (spanTrace : Option String) (genUUID : String) : String :=
  if header ≠ "" then header
  else
    match spanTrace with
    | some t => t
    | none => genUUID

/-- `middleware.CustomHTTPError`: renders a gRPC status reaching the
gateway into a problem+json HTTP response.  When an embedded `ErrorDetail`
is found it is re-stamped with the current request's trace id and URL path;
otherwise a generic Internal error is synthesized from the status message
(keeping the wire status's code for the HTTP mapping). -/
def CustomHTTPError (header : String) (spanTrace : Option String)
    (genUUID urlPath : String) (st : WireStatus) (now : Nat) : HTTPResponse :=
  let traceID := resolveTraceID header spanTrace genUUID
  match firstErrorDetail st.details with
  | some ed =>
      let ed2 := { ed with TraceId := traceID, Instance := urlPath }
      { contentType := "application/problem+json"
        status := HTTPStatusFromCode st.code
        body := { type := getTypeForCode ed2.Code
                  title := ed2.Title
                  status := HTTPStatusFromCode st.code
                  detail := ed2.Detail
                  instanceVal := some ed2.Instance
                  traceId := ed2.TraceId
                  timestamp := ed2.Timestamp
                  errors := if ed2.FieldViolations.isEmpty then none
                            else some ed2.FieldViolations
                  extensions := if ed2.Extensions.isEmpty then none
                                else some ed2.Extensions } }
  | none =>
      let fallbackErr :=
        { NewInternal st.message traceID none with GRPCCode := st.code }
      writeAppErrorResponse fallbackErr urlPath now

end Todo

/-- C5: for every AppError in a validation category (transport code
`InvalidArgument` per the fixed table) that has field violations,
`ToGRPCStatus` attaches the structured detail twice — the generic
`BadRequest` block listing the same (field, description) pairs and the
application-specific `ErrorDetail` — while for every non-validation
AppError only the `ErrorDetail` is attached. -/
theorem Todo.toGRPCStatus_detail_attachment (e : Todo.AppError) (now : Nat) :
    (e.GRPCCode = Todo.GRPCCode.InvalidArgument → e.FieldViolations ≠ [] →
      (e.ToGRPCStatus now).details =
        [Todo.StatusDetail.badRequest
            (e.FieldViolations.map fun fv => (fv.Field, fv.Description)),
          Todo.StatusDetail.errorDetail (e.toErrorDetail now)]) ∧
    (e.GRPCCode ≠ Todo.GRPCCode.InvalidArgument →
      (e.ToGRPCStatus now).details =
        [Todo.StatusDetail.errorDetail (e.toErrorDetail now)]) := by
  constructor
  · intro h1 h2
    simp [Todo.AppError.ToGRPCStatus, h1, h2]
  · intro h1
    simp [Todo.AppError.ToGRPCStatus, h1]

theorem Todo.toGRPCStatus_detail_attachment_witness :
    ((Todo.NewValidationFailed
        [⟨"title", "REQUIRED_FIELD", "Title is required"⟩] "t1").ToGRPCStatus 0).details =
      [Todo.StatusDetail.badRequest [("title", "Title is required")],
        Todo.StatusDetail.errorDetail
          ((Todo.NewValidationFailed
            [⟨"title", "REQUIRED_FIELD", "Title is required"⟩] "t1").toErrorDetail 0)] ∧
    ((Todo.NewNotFound "Task" "zz" "t2").ToGRPCStatus 0).details =
      [Todo.StatusDetail.errorDetail ((Todo.NewNotFound "Task" "zz" "t2").toErrorDetail 0)] :=
  ⟨(Todo.toGRPCStatus_detail_attachment
      (Todo.NewValidationFailed [⟨"title", "REQUIRED_FIELD", "Title is required"⟩] "t1") 0).1
      rfl (by decide),
    (Todo.toGRPCStatus_detail_attachment (Todo.NewNotFound "Task" "zz" "t2") 0).2 (by decide)⟩

/-- C6: `CausedBy` is never serialized into a client-facing representation:
two AppErrors differing only in `CausedBy` produce identical wire statuses
from `ToGRPCStatus` and identical HTTP problem+json responses from
`writeAppErrorResponse`. -/
theorem Todo.causedBy_never_serialized (e : Todo.AppError) (c₁ c₂ : Option String)
    (now : Nat) (inst : String) :
    ({ e with CausedBy := c₁ } : Todo.AppError).ToGRPCStatus now =
      ({ e with CausedBy := c₂ } : Todo.AppError).ToGRPCStatus now ∧
    Todo.writeAppErrorResponse { e with CausedBy := c₁ } inst now =
      Todo.writeAppErrorResponse { e with CausedBy := c₂ } inst now :=
  ⟨rfl, rfl⟩

/-- C8: the RPC error interceptor passes a nil-error result through
untouched; converts an AppError via `ToGRPCStatus`, logging the cause when
present; returns a native wire-status error unchanged without
double-wrapping; and wraps any other error as an Internal AppError with an
empty trace id before converting. -/
theorem Todo.unaryErrorInterceptor_cases {α : Type} (r : α) (e : Todo.AppError)
    (st : Todo.WireStatus) (msg c : String) (now : Nat) :
    Todo.UnaryErrorInterceptor (Todo.HandlerResult.ok r) now =
      (Todo.InterceptOut.ok r, []) ∧
    (Todo.UnaryErrorInterceptor
        (Todo.HandlerResult.fail (Todo.HandlerErr.app e) : Todo.HandlerResult α) now).1 =
      Todo.InterceptOut.err (e.ToGRPCStatus now) ∧
    (e.CausedBy = some c →
      (Todo.UnaryErrorInterceptor
          (Todo.HandlerResult.fail (Todo.HandlerErr.app e) : Todo.HandlerResult α) now).2 =
        ["ERROR: " ++ e.Title ++ ", Original cause: " ++ c]) ∧
    Todo.UnaryErrorInterceptor
        (Todo.HandlerResult.fail (Todo.HandlerErr.grpcStatus st) : Todo.HandlerResult α) now =
      (Todo.InterceptOut.err st, []) ∧
    Todo.UnaryErrorInterceptor
        (Todo.HandlerResult.fail (Todo.HandlerErr.other msg) : Todo.HandlerResult α) now =
      (Todo.InterceptOut.err
          ((Todo.NewInternal "An unexpected error occurred" "" (some msg)).ToGRPCStatus now),
        ["UNEXPECTED ERROR: " ++ msg]) := by
  refine ⟨rfl, rfl, ?_, rfl, rfl⟩
  intro hc
  simp [Todo.UnaryErrorInterceptor, hc]

theorem Todo.unaryErrorInterceptor_cases_witness :
    Todo.UnaryErrorInterceptor (Todo.HandlerResult.ok (0 : Nat)) 0 =
      (Todo.InterceptOut.ok 0, []) ∧
    (Todo.UnaryErrorInterceptor
        (Todo.HandlerResult.fail
          (Todo.HandlerErr.app (Todo.NewInternal "boom" "t" (some "io failure")))
          : Todo.HandlerResult Nat) 0).2 =
      ["ERROR: Internal Server Error, Original cause: io failure"] :=
  ⟨(Todo.unaryErrorInterceptor_cases (0 : Nat)
      (Todo.NewInternal "boom" "t" (some "io failure"))
      ⟨Todo.GRPCCode.OK, "", []⟩ "m" "io failure" 0).1,
    (Todo.unaryErrorInterceptor_cases (0 : Nat)
      (Todo.NewInternal "boom" "t" (some "io failure"))
      ⟨Todo.GRPCCode.OK, "", []⟩ "m" "io failure" 0).2.2.1 rfl⟩

/-- C4: on the proxied HTTP path, whenever the wire status carries an
embedded `ErrorDetail` and the inbound `X-Trace-ID` header is present
(non-empty), the rendered JSON body's `traceId` is that header value —
overriding any trace id embedded by the RPC layer — and its `instance` is
the current request's URL path. -/
theorem Todo.customHTTPError_restamps_trace_and_instance (header : String)
    (spanTrace : Option String) (genUUID urlPath : String) (st : Todo.WireStatus)
    (now : Nat) (ed : Todo.ErrorDetail) (hh : header ≠ "")
    (hd : Todo.firstErrorDetail st.details = some ed) :
    (Todo.CustomHTTPError header spanTrace genUUID urlPath st now).body.traceId = header ∧
    (Todo.CustomHTTPError header spanTrace genUUID urlPath st now).body.instanceVal =
      some urlPath := by
  unfold Todo.CustomHTTPError
  rw [hd]
  simp [Todo.resolveTraceID, hh]

theorem Todo.customHTTPError_restamps_trace_and_instance_witness :
    (Todo.CustomHTTPError "abc" (some "rpc-generated-trace") "uuid" "/v1/tasks"
        ⟨Todo.GRPCCode.NotFound, "Resource Not Found",
          [Todo.StatusDetail.errorDetail
            ⟨"RESOURCE_NOT_FOUND", "Resource Not Found", "Task with ID 'zz' was not found.",
              [], "rpc-generated-trace", 7, "/rpc", []⟩]⟩ 0).body.traceId = "abc" ∧
    (Todo.CustomHTTPError "abc" (some "rpc-generated-trace") "uuid" "/v1/tasks"
        ⟨Todo.GRPCCode.NotFound, "Resource Not Found",
          [Todo.StatusDetail.errorDetail
            ⟨"RESOURCE_NOT_FOUND", "Resource Not Found", "Task with ID 'zz' was not found.",
              [], "rpc-generated-trace", 7, "/rpc", []⟩]⟩ 0).body.instanceVal =
      some "/v1/tasks" :=
  Todo.customHTTPError_restamps_trace_and_instance "abc" (some "rpc-generated-trace")
    "uuid" "/v1/tasks"
    ⟨Todo.GRPCCode.NotFound, "Resource Not Found",
      [Todo.StatusDetail.errorDetail
        ⟨"RESOURCE_NOT_FOUND", "Resource Not Found", "Task with ID 'zz' was not found.",
          [], "rpc-generated-trace", 7, "/rpc", []⟩]⟩ 0
    ⟨"RESOURCE_NOT_FOUND", "Resource Not Found", "Task with ID 'zz' was not found.",
      [], "rpc-generated-trace", 7, "/rpc", []⟩ (by decide) (by decide)

/-- C7: on the proxied HTTP path, when no `ErrorDetail` can be recovered
from the wire status, the translator still responds: it synthesizes a
generic Internal error whose detail is the wire status's message (keeping
the wire code for the HTTP status mapping) and renders a well-formed
problem+json body. -/
theorem Todo.customHTTPError_fallback_synthesizes_internal (header : String)
    (spanTrace : Option String) (genUUID urlPath : String) (st : Todo.WireStatus)
    (now : Nat) (hd : Todo.firstErrorDetail st.details = none) :
    Todo.CustomHTTPError header spanTrace genUUID urlPath st now =
      Todo.writeAppErrorResponse
        { Todo.NewInternal st.message (Todo.resolveTraceID header spanTrace genUUID) none with
            GRPCCode := st.code } urlPath now ∧
    (Todo.CustomHTTPError header spanTrace genUUID urlPath st now).contentType =
      "application/problem+json" ∧
    (Todo.CustomHTTPError header spanTrace genUUID urlPath st now).body.detail = st.message ∧
    (Todo.CustomHTTPError header spanTrace genUUID urlPath st now).body.title =
      "Internal Server Error" ∧
    (Todo.CustomHTTPError header spanTrace genUUID urlPath st now).body.type =
      "https://api.example.com/errors/internal-error" ∧
    (Todo.CustomHTTPError header spanTrace genUUID urlPath st now).status =
      Todo.HTTPStatusFromCode st.code := by
  unfold Todo.CustomHTTPError
  rw [hd]
  refine ⟨rfl, rfl, rfl, rfl, ?_, rfl⟩
  simp [Todo.writeAppErrorResponse, Todo.NewInternal, Todo.getTypeForCode,
    Todo.AppErrorCode.string]

theorem Todo.customHTTPError_fallback_synthesizes_internal_witness :
    Todo.CustomHTTPError "" none "uuid" "/v1/tasks"
        ⟨Todo.GRPCCode.Unknown, "library failure", []⟩ 3 =
      Todo.writeAppErrorResponse
        { Todo.NewInternal "library failure" "uuid" none with
            GRPCCode := Todo.GRPCCode.Unknown } "/v1/tasks" 3 ∧
    (Todo.CustomHTTPError "" none "uuid" "/v1/tasks"
        ⟨Todo.GRPCCode.Unknown, "library failure", []⟩ 3).body.detail = "library failure" :=
  ⟨((Todo.customHTTPError_fallback_synthesizes_internal "" none "uuid" "/v1/tasks"
      ⟨Todo.GRPCCode.Unknown, "library failure", []⟩ 3 (by decide)).1),
    ((Todo.customHTTPError_fallback_synthesizes_internal "" none "uuid" "/v1/tasks"
      ⟨Todo.GRPCCode.Unknown, "library failure", []⟩ 3 (by decide)).2.2.1)⟩

namespace Todo

/-- The mutable state of `middleware.responseWriter`: the recorded status
code and the written flag (Go zero values on construction). -/
structure RWState where
  statusCode : Nat
  written : Bool
  deriving DecidableEq

/-- Initial wrapper state, as built in `HTTPErrorHandler`. -/
def rwInit : RWState := { statusCode := 0, written := false }

/-- Calls a handler can make on the wrapper. -/
inductive RWOp where
  | writeHeader (code : Nat)
  | write (b : String)
  deriving DecidableEq

/-- Calls the wrapper forwards to the underlying `http.ResponseWriter`. -/
inductive UnderCall where
  | writeHeader (code : Nat)
  | write (b : String)
  deriving DecidableEq

/-- `responseWriter.WriteHeader`: records and forwards the code only if
nothing has been written yet. -/
def rwWriteHeader (s : RWState) (code : Nat) : RWState × List UnderCall :=
  if s.written then (s, [])
  else ({ statusCode := code, written := true }, [UnderCall.writeHeader code])

/-- `responseWriter.Write`: implies a 200 header on first write, then
forwards the bytes. -/
def rwWrite (s : RWState) (b : String) : RWState × List UnderCall :=
  let (s2, calls) := if s.written then (s, []) else rwWriteHeader s 200
  (s2, calls ++ [UnderCall.write b])

/-- Run a sequence of handler calls against the wrapper, collecting the
forwarded calls. -/
def rwRun (s : RWState) : List RWOp → RWState × List UnderCall
  | [] => (s, [])
  | op :: ops =>
      let (s2, calls) :=
        match op with
        | .writeHeader code => rwWriteHeader s code
        | .write b => rwWrite s b
      let (s3, rest) := rwRun s2 ops
      (s3, calls ++ rest)

/-- The status codes among a list of forwarded calls. -/
def headersSent (calls : List UnderCall) : List Nat :=
  calls.filterMap fun c =>
    match c with
    | .writeHeader n => some n
    | .write _ => none

/-- The single status code a call sequence should produce: the first
`WriteHeader`'s code, or 200 if a `Write` comes first. -/
def expectedHeader : List RWOp → List Nat
  | [] => []
  | .writeHeader code :: _ => [code]
  | .write _ :: _ => [200]

theorem rwRun_written (ops : List RWOp) (s : RWState) (h : s.written = true) :
    (rwRun s ops).1 = s ∧ headersSent (rwRun s ops).2 = [] := by
  induction ops generalizing s with
  | nil => exact ⟨rfl, rfl⟩
  | cons op ops ih =>
      cases op with
      | writeHeader code =>
          simpa [rwRun, rwWriteHeader, h] using ih s h
      | write b =>
          have := ih s h
          simp [rwRun, rwWrite, h, headersSent] at this ⊢
          simpa [headersSent] using this

end Todo

/-- C10: the response wrapper forwards `WriteHeader` to the underlying
writer at most once — for any sequence of handler calls, exactly the first
status code (or 200 implied by a first `Write`) is sent and no other — and
once something has been written, a later `WriteHeader` leaves the recorded
status code and the written flag unchanged and forwards nothing, so a panic
recovered after the handler has written cannot alter the response status. -/
theorem Todo.responseWriter_single_header (ops : List Todo.RWOp) (c : Nat)
    (h : (Todo.rwRun Todo.rwInit ops).1.written = true) :
    Todo.headersSent (Todo.rwRun Todo.rwInit ops).2 = Todo.expectedHeader ops ∧
    (Todo.headersSent (Todo.rwRun Todo.rwInit ops).2).length ≤ 1 ∧
    Todo.rwWriteHeader (Todo.rwRun Todo.rwInit ops).1 c =
      ((Todo.rwRun Todo.rwInit ops).1, []) := by
  have main : ∀ ops : List Todo.RWOp,
      Todo.headersSent (Todo.rwRun Todo.rwInit ops).2 = Todo.expectedHeader ops := by
    intro ops
    cases ops with
    | nil => rfl
    | cons op ops =>
        cases op with
        | writeHeader code =>
            have h1 : (Todo.rwWriteHeader Todo.rwInit code) =
                ({ statusCode := code, written := true }, [Todo.UnderCall.writeHeader code]) := by
              simp [Todo.rwWriteHeader, Todo.rwInit]
            have h2 := Todo.rwRun_written ops { statusCode := code, written := true } rfl
            simp [Todo.rwRun, h1, Todo.headersSent, Todo.expectedHeader] at h2 ⊢
            simpa [Todo.headersSent] using h2.2
        | write b =>
            have h2 := Todo.rwRun_written ops { statusCode := 200, written := true } rfl
            simp [Todo.rwRun, Todo.rwWrite, Todo.rwWriteHeader, Todo.rwInit,
              Todo.headersSent, Todo.expectedHeader] at h2 ⊢
            simpa [Todo.headersSent] using h2.2
  refine ⟨main ops, ?_, ?_⟩
  · rw [main ops]
    cases ops with
    | nil => simp [Todo.expectedHeader]
    | cons op ops => cases op <;> simp [Todo.expectedHeader]
  · simp [Todo.rwWriteHeader, h]

theorem Todo.responseWriter_single_header_witness :
    Todo.headersSent
        (Todo.rwRun Todo.rwInit
          [Todo.RWOp.writeHeader 201, Todo.RWOp.write "ok", Todo.RWOp.writeHeader 500]).2 =
      [201] ∧
    Todo.rwWriteHeader
        (Todo.rwRun Todo.rwInit
          [Todo.RWOp.writeHeader 201, Todo.RWOp.write "ok", Todo.RWOp.writeHeader 500]).1 500 =
      ((Todo.rwRun Todo.rwInit
          [Todo.RWOp.writeHeader 201, Todo.RWOp.write "ok", Todo.RWOp.writeHeader 500]).1, []) :=
  ⟨(Todo.responseWriter_single_header
      [Todo.RWOp.writeHeader 201, Todo.RWOp.write "ok", Todo.RWOp.writeHeader 500] 500
      (by decide)).1,
    (Todo.responseWriter_single_header
      [Todo.RWOp.writeHeader 201, Todo.RWOp.write "ok", Todo.RWOp.writeHeader 500] 500
      (by decide)).2.2⟩

namespace Todo

/-- `todopb.Status`. -/
inductive TaskStatus where
  | STATUS_UNSPECIFIED
  | STATUS_PENDING
  | STATUS_IN_PROGRESS
  | STATUS_COMPLETED
  deriving DecidableEq

/-- `todopb.Priority`. -/
inductive TaskPriority where
  | PRIORITY_UNSPECIFIED
  | PRIORITY_LOW
  | PRIORITY_MEDIUM
  | PRIORITY_HIGH
  deriving DecidableEq

/-- `todopb.Task`, restricted to the fields the validation and creation
paths read.  Timestamps are numeric instants. -/
structure Task where
  Name : String := ""
  Title : String := ""
  Description : String := ""
  Status : TaskStatus := TaskStatus.STATUS_UNSPECIFIED
  Priority : TaskPriority := TaskPriority.PRIORITY_UNSPECIFIED
  DueDate : Option Nat := none
  Tags : List String := []
  CreateTime : Option Nat := none
  UpdateTime : Option Nat := none
  CreatedBy : String := ""
  deriving DecidableEq

/-- `todopb.CreateTaskRequest` (nil task allowed, as on the wire). -/
structure CreateTaskRequest where
  Task : Option Todo.Task
  deriving DecidableEq

/-- `todopb.BatchCreateTasksRequest`. -/
structure BatchCreateTasksRequest where
  Requests : List CreateTaskRequest
  deriving DecidableEq

/-- `validation.isValidTag`: at most 50 bytes and matching
the anchored pattern of one-or-more lowercase letters, digits or hyphens. -/
def isValidTag (tag : String) : Bool :=
  tag.length ≤ 50 && tag ≠ "" && tag.all fun ch => ch.isLower || ch.isDigit || ch == '-'

/-- Modelled from the spec: the declarative protovalidate constraint set for
`Task` consumed by `validation.ValidateRequest` lives in proto files that are
not part of the source tree.  Spec sections 4.2, 6 and 8 fix the constraints
the scenarios exercise: `title` is required (empty title gives a
REQUIRED_FIELD violation) and `description` has a max length of 1000 (length
1001 gives TOO_LONG); constraints run in field-declaration order (title
before description).  Violation messages are representative, as the spec
does not fix their text. -/
def protovalidateTaskViolations (t : Task) : List FieldViolation :=
  (if t.Title = "" then
    [{ Field := "title", Code := AppErrorCode.REQUIRED_FIELD.string,
       Description := "title is required" }]
  else []) ++
  (if t.Description.length > 1000 then
    [{ Field := "description", Code := AppErrorCode.TOO_LONG.string,
       Description := "description must be at most 1000 characters" }]
  else [])

/-- `validation.ValidateRequest` specialised to `Task`: bundles all schema
violations into one `ValidationFailed` error, or returns nil. -/
def ValidateRequestTask (t : Task) (traceID : String) : Option AppError :=
  let vs := protovalidateTaskViolations t
  if vs.isEmpty then none else some (NewValidationFailed vs traceID)

/-- The `OVERDUE_COMPLETION` business rule of `validation.ValidateTask`. -/
def overdueViolations (t : Task) : List FieldViolation :=
  if t.Status = TaskStatus.STATUS_COMPLETED then
    match t.DueDate, t.UpdateTime with
    | some d, some u =>
        if d < u then
          [{ Field := "due_date", Code := AppErrorCode.OVERDUE_COMPLETION.string,
             Description := "Task was completed after the due date" }]
        else []
    | _, _ => []
  else []

/-- The tag-format loop of `validation.ValidateTask`. -/
def tagFormatViolations (t : Task) : List FieldViolation :=
  (List.range t.Tags.length).filterMap fun i =>
    match t.Tags.get? i with
    | some tag =>
        if isValidTag tag then none
        else
          some { Field := "tags[" ++ Nat.repr i ++ "]",
                 Code := AppErrorCode.INVALID_TAG_FORMAT.string,
                 Description := "Tag '" ++ tag ++
                   "' must be lowercase letters, numbers, and hyphens only" }
    | none => none

/-- The duplicate-tag loop of `validation.ValidateTask`: a violation at
every index whose tag already occurred at a smaller index. -/
def dupTagViolations (t : Task) : List FieldViolation :=
  (List.range t.Tags.length).filterMap fun i =>
    match t.Tags.get? i with
    | some tag =>
        if tag ∈ t.Tags.take i then
          some { Field := "tags[" ++ Nat.repr i ++ "]",
                 Code := AppErrorCode.DUPLICATE_TAG.string,
                 Description := "Tag '" ++ tag ++ "' appears multiple times" }
        else none
    | none => none

/-- All violations `validation.ValidateTask` collects, in emission order:
schema violations first, then the business rules. -/
def taskViolations (t : Task) : List FieldViolation :=
  protovalidateTaskViolations t ++ overdueViolations t ++
    tagFormatViolations t ++ dupTagViolations t

/-- `validation.ValidateTask`. -/
def ValidateTask (t : Task) (traceID : String) : Option AppError :=
  let violations :=
    (match ValidateRequestTask t traceID with
      | some e => e.FieldViolations
      | none => []) ++
    overdueViolations t ++ tagFormatViolations t ++ dupTagViolations t
  if violations.isEmpty then none else some (NewValidationFailed violations traceID)

theorem validateTask_eq (t : Task) (traceID : String) :
    ValidateTask t traceID =
      if (taskViolations t).isEmpty then none
      else some (NewValidationFailed (taskViolations t) traceID) := by
  unfold ValidateTask ValidateRequestTask taskViolations
  by_cases h : (protovalidateTaskViolations t).isEmpty
  · rw [List.isEmpty_iff] at h
    simp [h]
  · simp [h, NewValidationFailed]

/-- Whether batch item `i` contributes its title to the duplicate-title map
(`titleMap`): the item exists, its task is non-nil and its title non-empty,
and the title is `t`. -/
def hasTitleAt (reqs : List CreateTaskRequest) (i : Nat) (t : String) : Bool :=
  match reqs.get? i with
  | some cr =>
      match cr.Task with
      | some tk => tk.Title == t && tk.Title != ""
      | none => false
  | none => false

/-- The index list `titleMap[t]` built by `ValidateBatchCreateTasks`, in
its append (ascending-index) order. -/
def titleIndices (reqs : List CreateTaskRequest) (t : String) : List Nat :=
  (List.range reqs.length).filter fun i => hasTitleAt reqs i t

/-- The multiset of keys inserted into `titleMap`, with multiplicity, in
request order. -/
def titlePool (reqs : List CreateTaskRequest) : List String :=
  reqs.filterMap fun cr =>
    match cr.Task with
    | some tk => if tk.Title = "" then none else some tk.Title
    | none => none

/-- A possible Go iteration order over `titleMap`'s keys: any enumeration of
the key set, i.e. any permutation of the deduplicated title pool.  Go leaves
the order unspecified (and randomizes it), so the embedding quantifies over
it. -/
def isKeyEnum (reqs : List CreateTaskRequest) (ko : List String) : Prop :=
  ko.Perm (titlePool reqs).dedup

instance (reqs : List CreateTaskRequest) (ko : List String) :
    Decidable (isKeyEnum reqs ko) :=
  List.decidablePerm ko (titlePool reqs).dedup

/-- The description `ValidateBatchCreateTasks` gives a duplicate-title
violation. -/
def dupDescription (t : String) : String :=
  "Title '" ++ t ++ "' is used by multiple tasks in the batch"

/-- The `DUPLICATE_TITLE` violation emitted for occurrence index `i` of a
shared title `t`. -/
def dupViolation (t : String) (i : Nat) : FieldViolation :=
  { Field := "requests[" ++ Nat.repr i ++ "].task.title",
    Code := AppErrorCode.DUPLICATE_TITLE.string,
    Description := dupDescription t }

/-- The duplicate-title violations of `ValidateBatchCreateTasks`, given the
map iteration order `ko`: for every key whose index list has length at
least two, one violation per occurrence. -/
def dupTitleViolations (reqs : List CreateTaskRequest) (ko : List String) :
    List FieldViolation :=
  ko.flatMap fun t =>
    if 2 ≤ (titleIndices reqs t).length then
      (titleIndices reqs t).map (dupViolation t)
    else []

/-- The violations the per-item loop of `ValidateBatchCreateTasks` emits
for item `i`: `REQUIRED_FIELD` for a nil task, otherwise the item's
`ValidateTask` violations with the `requests[i].task.` field prefix. -/
def itemViolations (reqs : List CreateTaskRequest) (i : Nat) (traceID : String) :
    List FieldViolation :=
  match reqs.get? i with
  | none => []
  | some cr =>
      match cr.Task with
      | none =>
          [{ Field := "requests[" ++ Nat.repr i ++ "].task",
             Code := AppErrorCode.REQUIRED_FIELD.string,
             Description := "Task is required" }]
      | some tk =>
          match ValidateTask tk traceID with
          | some e =>
              e.FieldViolations.map fun v =>
                { v with Field := "requests[" ++ Nat.repr i ++ "].task." ++ v.Field }
          | none => []

/-- The batch-size violations (`EMPTY_BATCH`, `BATCH_TOO_LARGE`) of
`ValidateBatchCreateTasks`, in emission order. -/
def sizeViolations (reqs : List CreateTaskRequest) : List FieldViolation :=
  (if reqs.length = 0 then
    [{ Field := "requests", Code := AppErrorCode.EMPTY_BATCH.string,
       Description := "Batch must contain at least one task" }]
  else []) ++
  (if reqs.length > 100 then
    [{ Field := "requests", Code := AppErrorCode.BATCH_TOO_LARGE.string,
       Description := "Batch size " ++ Nat.repr reqs.length ++
         " exceeds maximum of 100" }]
  else [])

/-- All violations `ValidateBatchCreateTasks` collects, in emission order:
size checks, then the per-item loop, then the duplicate-title map sweep. -/
def batchViolations (reqs : List CreateTaskRequest) (traceID : String)
    (ko : List String) : List FieldViolation :=
  sizeViolations reqs ++
    (List.range reqs.length).flatMap (fun i => itemViolations reqs i traceID) ++
    dupTitleViolations reqs ko

/-- `validation.ValidateBatchCreateTasks`, parameterized by the map
iteration order `ko`. -/
def ValidateBatchCreateTasks (req : BatchCreateTasksRequest) (traceID : String)
    (ko : List String) : Option AppError :=
  let violations := batchViolations req.Requests traceID ko
  if violations.isEmpty then none else some (NewValidationFailed violations traceID)

end Todo

namespace Todo

/-- The repository's sentinel error conditions (`internal/repository`). -/
inductive RepoErr where
  | notFound
  | alreadyExists
  | connection
  deriving DecidableEq

/-- The sentinel errors' messages (`errors.New(...)` in the repository). -/
def repoErrMessage : RepoErr → String
  | .notFound => "not found"
  | .alreadyExists => "already exists"
  | .connection => "connection error"

/-- `repository.extractID`: the second segment of a `tasks/{id}` name. -/
def extractID (name : String) : String :=
  match name.splitOn "/" with
  | [_, id] => id
  | _ => name

/-- `InMemoryRepository.GetTaskByTitle` via the title index: the stored task
with the given title, if any. -/
def repoGetTaskByTitle (repo : List Task) (title : String) : Option Task :=
  repo.find? fun tk => tk.Title == title

/-- `InMemoryRepository.CreateTask`: fails with `ErrAlreadyExists` when the
id or the title is already taken, otherwise stores the task. -/
def repoCreateTask (repo : List Task) (task : Task) : Except RepoErr (List Task) :=
  let id := extractID task.Name
  if repo.any (fun ex => extractID ex.Name == id) then
    Except.error RepoErr.alreadyExists
  else if repo.any (fun ex => ex.Title == task.Title && extractID ex.Name != id) then
    Except.error RepoErr.alreadyExists
  else
    Except.ok (repo ++ [task])

/-- `TodoService.handleRepositoryError`: `ConnectionFailure` maps to
`ServiceUnavailable`, everything else unexpected to `Internal` with the
repository error as cause. -/
def handleRepositoryError (e : RepoErr) (traceID : String) : AppError :=
  match e with
  | .connection =>
      NewServiceUnavailable "Unable to connect to the database. Please try again later." traceID
  | _ =>
      NewInternal "An unexpected error occurred while processing your request" traceID
        (some (repoErrMessage e))

/-- The task `TodoService.CreateTask` builds before saving: generated name,
copied fields, fresh timestamps, defaulted status and priority, creator
from the request context. -/
def buildTask (user uuid : String) (nowT : Nat) (t : Task) : Task :=
  let task : Task :=
    { Name := "tasks/" ++ uuid
      Title := t.Title
      Description := t.Description
      Status := t.Status
      Priority := t.Priority
      DueDate := t.DueDate
      Tags := t.Tags
      CreateTime := some nowT
      UpdateTime := some nowT
      CreatedBy := user }
  let task :=
    if task.Status = TaskStatus.STATUS_UNSPECIFIED then
      { task with Status := TaskStatus.STATUS_PENDING }
    else task
  if task.Priority = TaskPriority.PRIORITY_UNSPECIFIED then
    { task with Priority := TaskPriority.PRIORITY_MEDIUM }
  else task

/-- `TodoService.CreateTask` against the in-memory repository: nil-task
check, `ValidateTask`, duplicate-title conflict check, then store.  Returns
the created task and the updated repository. -/
def svcCreateTask (user uuid : String) (nowT : Nat) (repo : List Task)
    (cr : CreateTaskRequest) (traceID : String) : Except AppError (Task × List Task) :=
  match cr.Task with
  | none => Except.error (NewRequiredField "task" "Task object is required" traceID)
  | some t =>
      match ValidateTask t traceID with
      | some e => Except.error e
      | none =>
          match repoGetTaskByTitle repo t.Title with
          | some _ =>
              Except.error (NewConflict "task" "A task with this title already exists" traceID)
          | none =>
              let task := buildTask user uuid nowT t
              match repoCreateTask repo task with
              | Except.error re => Except.error (handleRepositoryError re traceID)
              | Except.ok repo2 => Except.ok (task, repo2)

/-- The per-item loop of `TodoService.BatchCreateTasks`: accumulates
created tasks, batch error strings (`"Task %d: %s"` with the error's
`Error()` text) and the evolving repository. -/
def processBatch (user : String) (uuids : Nat → String) (nowT : Nat)
    (repo : List Task) (reqs : List CreateTaskRequest) (traceID : String) :
    List Task × List String × List Task :=
  (List.range reqs.length).foldl
    (fun acc i =>
      match reqs.get? i with
      | none => acc
      | some cr =>
          match svcCreateTask user (uuids i) nowT acc.2.2 cr traceID with
          | Except.error e =>
              (acc.1, acc.2.1 ++ ["Task " ++ Nat.repr i ++ ": " ++ e.ErrorString], acc.2.2)
          | Except.ok (task, repo2) => (acc.1 ++ [task], acc.2.1, repo2))
    ([], [], repo)

/-- `todopb.BatchCreateTasksResponse`: the wire response carries only the
created tasks; batch failure counts are emitted as span attributes, not in
the response. -/
structure BatchCreateTasksResponse where
  Tasks : List Task
  deriving DecidableEq

/-- `TodoService.BatchCreateTasks`: validates the whole batch first and
fails hard on any violation; otherwise creates item by item, returns an
Internal error if every item failed, and otherwise the created subset (the
error strings model the span attributes, the final list the repository). -/
def BatchCreateTasks (user : String) (uuids : Nat → String) (nowT : Nat)
    (repo : List Task) (req : BatchCreateTasksRequest) (traceID : String)
    (ko : List String) :
    Except AppError (BatchCreateTasksResponse × List String × List Task) :=
  match ValidateBatchCreateTasks req traceID ko with
  | some e => Except.error e
  | none =>
      let r := processBatch user uuids nowT repo req.Requests traceID
      if r.1 = [] ∧ r.2.1 ≠ [] then
        Except.error (NewInternal "All batch operations failed" traceID none)
      else
        Except.ok ({ Tasks := r.1 }, r.2.1, r.2.2)

/-- Whether an `Except` result is a success. -/
def exceptIsOk {ε α : Type} : Except ε α → Bool
  | .ok _ => true
  | .error _ => false

end Todo

/-- C2 (counterexample): at the spec's own example batch
`[valid, {title:""}, valid, null]`, `BatchCreateTasks` does not succeed
with the two valid items created — the up-front batch validation sees the
empty title and the nil task and fails the whole call with a hard
`ValidationFailed` error. -/
theorem Todo.batchCreateTasks_rejects_partially_invalid_batch :
    Todo.isKeyEnum
      [⟨some { Title := "write-spec" }⟩, ⟨some { Title := "" }⟩,
        ⟨some { Title := "review-spec" }⟩, ⟨none⟩]
      ["write-spec", "review-spec"] ∧
    Todo.exceptIsOk
      (Todo.BatchCreateTasks "anonymous" (fun i => "u" ++ Nat.repr i) 0 []
        ⟨[⟨some { Title := "write-spec" }⟩, ⟨some { Title := "" }⟩,
          ⟨some { Title := "review-spec" }⟩, ⟨none⟩]⟩
        "tid" ["write-spec", "review-spec"]) = false := by
  constructor
  · decide
  · decide

/-- C2 (amended): `BatchCreateTasks` fails the whole call with the
validation error whenever batch validation reports any violation; when the
batch passes validation, it returns the successfully created subset (with
failure strings only as telemetry) unless every item failed during
creation, in which case — and only then — it returns a hard Internal
error. -/
theorem Todo.batchCreateTasks_partial_success_after_validation
    (user : String) (uuids : Nat → String) (nowT : Nat) (repo : List Todo.Task)
    (req : Todo.BatchCreateTasksRequest) (tid : String) (ko : List String) :
    (∀ e, Todo.ValidateBatchCreateTasks req tid ko = some e →
      Todo.BatchCreateTasks user uuids nowT repo req tid ko = Except.error e) ∧
    (Todo.ValidateBatchCreateTasks req tid ko = none →
      (¬ ((Todo.processBatch user uuids nowT repo req.Requests tid).1 = [] ∧
          (Todo.processBatch user uuids nowT repo req.Requests tid).2.1 ≠ []) →
        Todo.BatchCreateTasks user uuids nowT repo req tid ko =
          Except.ok
            ({ Tasks := (Todo.processBatch user uuids nowT repo req.Requests tid).1 },
              (Todo.processBatch user uuids nowT repo req.Requests tid).2.1,
              (Todo.processBatch user uuids nowT repo req.Requests tid).2.2)) ∧
      ((Todo.processBatch user uuids nowT repo req.Requests tid).1 = [] ∧
          (Todo.processBatch user uuids nowT repo req.Requests tid).2.1 ≠ [] →
        Todo.BatchCreateTasks user uuids nowT repo req tid ko =
          Except.error (Todo.NewInternal "All batch operations failed" tid none))) := by
  refine ⟨?_, ?_⟩
  · intro e he
    unfold Todo.BatchCreateTasks
    rw [he]
  · intro hv
    refine ⟨?_, ?_⟩ <;> intro hc <;> unfold Todo.BatchCreateTasks <;> rw [hv] <;>
      simp only [] <;> first
      | rw [if_neg hc]
      | rw [if_pos hc]

theorem Todo.batchCreateTasks_partial_success_after_validation_witness :
    (Todo.BatchCreateTasks "anonymous" (fun i => "u" ++ Nat.repr i) 0 []
        ⟨[⟨none⟩]⟩ "tid" [] =
      Except.error
        (Todo.NewValidationFailed
          [{ Field := "requests[0].task",
             Code := Todo.AppErrorCode.REQUIRED_FIELD.string,
             Description := "Task is required" }] "tid")) ∧
    (Todo.BatchCreateTasks "anonymous" (fun i => "u" ++ Nat.repr i) 0 []
        ⟨[⟨some { Title := "a" }⟩]⟩ "tid" ["a"] =
      Except.ok
        ({ Tasks := (Todo.processBatch "anonymous" (fun i => "u" ++ Nat.repr i) 0 []
            [⟨some { Title := "a" }⟩] "tid").1 },
          (Todo.processBatch "anonymous" (fun i => "u" ++ Nat.repr i) 0 []
            [⟨some { Title := "a" }⟩] "tid").2.1,
          (Todo.processBatch "anonymous" (fun i => "u" ++ Nat.repr i) 0 []
            [⟨some { Title := "a" }⟩] "tid").2.2)) ∧
    (Todo.BatchCreateTasks "anonymous" (fun i => "u" ++ Nat.repr i) 0
        [{ Name := "tasks/x", Title := "a" }]
        ⟨[⟨some { Title := "a" }⟩]⟩ "tid" ["a"] =
      Except.error (Todo.NewInternal "All batch operations failed" "tid" none)) :=
  ⟨(Todo.batchCreateTasks_partial_success_after_validation "anonymous"
      (fun i => "u" ++ Nat.repr i) 0 [] ⟨[⟨none⟩]⟩ "tid" []).1 _ (by decide),
    ((Todo.batchCreateTasks_partial_success_after_validation "anonymous"
      (fun i => "u" ++ Nat.repr i) 0 [] ⟨[⟨some { Title := "a" }⟩]⟩ "tid" ["a"]).2
      (by decide)).1 (by decide),
    ((Todo.batchCreateTasks_partial_success_after_validation "anonymous"
      (fun i => "u" ++ Nat.repr i) 0 [{ Name := "tasks/x", Title := "a" }]
      ⟨[⟨some { Title := "a" }⟩]⟩ "tid" ["a"]).2 (by decide)).2 (by decide)⟩

/-- C3: the sequence of `DUPLICATE_TITLE` violations emitted by
`ValidateBatchCreateTasks` depends on the iteration order of the Go map
`titleMap` — on the batch `[alpha, alpha, beta, beta]` both `[alpha, beta]`
and `[beta, alpha]` are possible key enumerations and they yield different
violation sequences.  Go randomizes map iteration order between runs, so
identical invalid input does not always yield violations in identical
order, contradicting the determinism property. -/
theorem Todo.validateBatch_dup_order_depends_on_map_iteration :
    Todo.isKeyEnum
      [⟨some { Title := "alpha" }⟩, ⟨some { Title := "alpha" }⟩,
        ⟨some { Title := "beta" }⟩, ⟨some { Title := "beta" }⟩]
      ["alpha", "beta"] ∧
    Todo.isKeyEnum
      [⟨some { Title := "alpha" }⟩, ⟨some { Title := "alpha" }⟩,
        ⟨some { Title := "beta" }⟩, ⟨some { Title := "beta" }⟩]
      ["beta", "alpha"] ∧
    Todo.ValidateBatchCreateTasks
        ⟨[⟨some { Title := "alpha" }⟩, ⟨some { Title := "alpha" }⟩,
          ⟨some { Title := "beta" }⟩, ⟨some { Title := "beta" }⟩]⟩
        "t" ["alpha", "beta"] ≠
      Todo.ValidateBatchCreateTasks
        ⟨[⟨some { Title := "alpha" }⟩, ⟨some { Title := "alpha" }⟩,
          ⟨some { Title := "beta" }⟩, ⟨some { Title := "beta" }⟩]⟩
        "t" ["beta", "alpha"] := by
  refine ⟨by decide, by decide, by decide⟩

theorem Todo.countP_flatMap {α β : Type} (l : List α) (f : α → List β) (p : β → Bool) :
    (l.flatMap f).countP p = (l.map fun a => (f a).countP p).sum := by
  induction l with
  | nil => rfl
  | cons a l ih => simp [List.flatMap_cons, List.countP_append, ih]

theorem Todo.sizeViolations_code_ne_dup (reqs : List Todo.CreateTaskRequest)
    (v : Todo.FieldViolation) (hv : v ∈ Todo.sizeViolations reqs) :
    v.Code ≠ Todo.AppErrorCode.DUPLICATE_TITLE.string := by
  unfold Todo.sizeViolations at hv
  rcases List.mem_append.1 hv with h | h <;> split at h <;>
    first
      | (simp only [List.mem_singleton] at h; subst h; dsimp only; decide)
      | simp at h

theorem Todo.taskViolations_code_ne_dup (t : Todo.Task) (v : Todo.FieldViolation)
    (hv : v ∈ Todo.taskViolations t) :
    v.Code ≠ Todo.AppErrorCode.DUPLICATE_TITLE.string := by
  unfold Todo.taskViolations at hv
  rcases List.mem_append.1 hv with h1 | h1
  rotate_left
  · -- duplicate-tag violations
    unfold Todo.dupTagViolations at h1
    rcases List.mem_filterMap.1 h1 with ⟨i, _, hm⟩
    split at hm
    · split at hm
      · injection hm with h
        subst h
        dsimp only
        decide
      · cases hm
    · cases hm
  rcases List.mem_append.1 h1 with h2 | h2
  rotate_left
  · -- tag-format violations
    unfold Todo.tagFormatViolations at h2
    rcases List.mem_filterMap.1 h2 with ⟨i, _, hm⟩
    split at hm
    · split at hm
      · cases hm
      · injection hm with h
        subst h
        dsimp only
        decide
    · cases hm
  rcases List.mem_append.1 h2 with h3 | h3
  · -- schema violations
    unfold Todo.protovalidateTaskViolations at h3
    rcases List.mem_append.1 h3 with h | h <;> split at h <;>
      first
        | (simp only [List.mem_singleton] at h; subst h; dsimp only; decide)
        | simp at h
  · -- overdue-completion violation
    unfold Todo.overdueViolations at h3
    repeat' split at h3
    all_goals
      first
        | (simp only [List.mem_singleton] at h3; subst h3; dsimp only; decide)
        | simp at h3

theorem Todo.itemViolations_code_ne_dup (reqs : List Todo.CreateTaskRequest) (i : Nat)
    (tid : String) (v : Todo.FieldViolation) (hv : v ∈ Todo.itemViolations reqs i tid) :
    v.Code ≠ Todo.AppErrorCode.DUPLICATE_TITLE.string := by
  unfold Todo.itemViolations at hv
  split at hv
  · simp at hv
  · split at hv
    · simp only [List.mem_singleton] at hv
      subst hv
      dsimp only
      decide
    · split at hv
      · rename_i e heq
        rcases List.mem_map.1 hv with ⟨w, hw, hvw⟩
        rw [Todo.validateTask_eq] at heq
        split at heq
        · cases heq
        · injection heq with h
          subst h
          subst hvw
          dsimp only
          exact Todo.taskViolations_code_ne_dup _ w hw
      · simp at hv

/-- C9: `ValidateBatchCreateTasks` detects duplicate titles across the
batch: the number of `DUPLICATE_TITLE` violations equals the total number
of occurrences of shared titles (one per occurrence, not just the second
one), and for every index at which a shared title appears — including the
first — the output contains the `DUPLICATE_TITLE` violation with field
path `requests[i].task.title`. -/
theorem Todo.validateBatch_one_dup_violation_per_occurrence
    (reqs : List Todo.CreateTaskRequest) (ko : List String) (tid : String)
    (hk : Todo.isKeyEnum reqs ko) :
    (Todo.batchViolations reqs tid ko).countP
        (fun v => v.Code == Todo.AppErrorCode.DUPLICATE_TITLE.string) =
      (ko.map fun t =>
        if 2 ≤ (Todo.titleIndices reqs t).length then (Todo.titleIndices reqs t).length
        else 0).sum ∧
    ∀ t : String, ∀ i ∈ Todo.titleIndices reqs t,
      2 ≤ (Todo.titleIndices reqs t).length →
      Todo.dupViolation t i ∈ Todo.batchViolations reqs tid ko := by
  constructor
  · unfold Todo.batchViolations
    rw [List.countP_append, List.countP_append]
    have h1 : (Todo.sizeViolations reqs).countP
        (fun v => v.Code == Todo.AppErrorCode.DUPLICATE_TITLE.string) = 0 := by
      rw [List.countP_eq_zero]
      intro v hv
      simpa using Todo.sizeViolations_code_ne_dup reqs v hv
    have h2 : ((List.range reqs.length).flatMap fun i =>
        Todo.itemViolations reqs i tid).countP
        (fun v => v.Code == Todo.AppErrorCode.DUPLICATE_TITLE.string) = 0 := by
      rw [List.countP_eq_zero]
      intro v hv
      rcases List.mem_flatMap.1 hv with ⟨j, _, hvj⟩
      simpa using Todo.itemViolations_code_ne_dup reqs j tid v hvj
    have h3 : (Todo.dupTitleViolations reqs ko).countP
        (fun v => v.Code == Todo.AppErrorCode.DUPLICATE_TITLE.string) =
        (ko.map fun t =>
          if 2 ≤ (Todo.titleIndices reqs t).length then (Todo.titleIndices reqs t).length
          else 0).sum := by
      unfold Todo.dupTitleViolations
      rw [Todo.countP_flatMap]
      congr 1
      congr 1
      funext t
      by_cases hc : 2 ≤ (Todo.titleIndices reqs t).length
      · rw [if_pos hc, if_pos hc, List.countP_map]
        exact List.countP_eq_length.2 fun a _ => by simp [Todo.dupViolation]
      · rw [if_neg hc, if_neg hc]
        rfl
    rw [h1, h2, h3]
    omega
  · intro t i hi h2
    have hb : Todo.hasTitleAt reqs i t = true := (List.mem_filter.1 hi).2
    have hpool : t ∈ Todo.titlePool reqs := by
      unfold Todo.hasTitleAt at hb
      split at hb
      · rename_i cr heq
        split at hb
        · rename_i tk heq2
          simp only [Bool.and_eq_true, beq_iff_eq, bne_iff_ne] at hb
          obtain ⟨hteq, hne⟩ := hb
          have hne2 : t ≠ "" := hteq ▸ hne
          refine List.mem_filterMap.2 ⟨cr, List.get?_mem heq, ?_⟩
          rw [heq2]
          simp [hteq, hne2]
        · cases hb
      · cases hb
    have hko : t ∈ ko := hk.mem_iff.2 (List.mem_dedup.2 hpool)
    unfold Todo.batchViolations Todo.dupTitleViolations
    refine List.mem_append.2 (Or.inr ?_)
    refine List.mem_flatMap.2 ⟨t, hko, ?_⟩
    rw [if_pos h2]
    exact List.mem_map_of_mem _ hi

theorem Todo.validateBatch_one_dup_violation_per_occurrence_witness :
    (Todo.batchViolations
        [⟨some { Title := "dup" }⟩, ⟨some { Title := "dup" }⟩, ⟨some { Title := "solo" }⟩]
        "t" ["dup", "solo"]).countP
      (fun v => v.Code == Todo.AppErrorCode.DUPLICATE_TITLE.string) = 2 ∧
    Todo.dupViolation "dup" 0 ∈
      Todo.batchViolations
        [⟨some { Title := "dup" }⟩, ⟨some { Title := "dup" }⟩, ⟨some { Title := "solo" }⟩]
        "t" ["dup", "solo"] ∧
    Todo.dupViolation "dup" 1 ∈
      Todo.batchViolations
        [⟨some { Title := "dup" }⟩, ⟨some { Title := "dup" }⟩, ⟨some { Title := "solo" }⟩]
        "t" ["dup", "solo"] :=
  ⟨(Todo.validateBatch_one_dup_violation_per_occurrence
      [⟨some { Title := "dup" }⟩, ⟨some { Title := "dup" }⟩, ⟨some { Title := "solo" }⟩]
      ["dup", "solo"] "t" (by decide)).1.trans (by decide),
    (Todo.validateBatch_one_dup_violation_per_occurrence
      [⟨some { Title := "dup" }⟩, ⟨some { Title := "dup" }⟩, ⟨some { Title := "solo" }⟩]
      ["dup", "solo"] "t" (by decide)).2 "dup" 0 (by decide) (by decide),
    (Todo.validateBatch_one_dup_violation_per_occurrence
      [⟨some { Title := "dup" }⟩, ⟨some { Title := "dup" }⟩, ⟨some { Title := "solo" }⟩]
      ["dup", "solo"] "t" (by decide)).2 "dup" 1 (by decide) (by decide)⟩
